import Mathlib

/-
Verification of the cluster-level DMR evaluation protocol demonstrated by
`examples/crystal-methods-evaluation.ipynb`.

The repository itself contains only the notebook; the clustering library
(`aclust.mclust`) and the evaluation harness (`crystal.evaluate_method`) are
imported as black boxes.  Definitions below that embed notebook cells carry a
doc comment naming the cell; definitions for the imported machinery are
modelled from the specification and say so explicitly.

Conventions of the embedding:
* tabular input rows are lists of string tokens (the tab-splitting done by
  `toolshed.reader` is upstream of the code under study);
* Python `float` values are modelled as rationals parsed from finite decimal
  numerals (the `inf`/`nan` spellings accepted by Python have no rational
  value and are out of scope for every claim considered);
* the NumPy global pseudorandom state is modelled as an explicit natural
  number threaded through every call, initialised by the seed
  (`np.random.seed`); the concrete generator is a linear congruential one,
  standing in for the external Mersenne twister;
* a missing / NaN p-value (non-convergent fit) is `Option.none`.
-/

deriving instance DecidableEq for Except

/-- Numeric value of a list of decimal digit characters. -/
def digitsVal (cs : List Char) : Nat :=
  cs.foldl (fun a c => 10 * a + (c.toNat - 48)) 0

/-- Python's `str.split(sep)` for a single-character separator, on a
character list. -/
def splitOnCharList (sep : Char) : List Char → List (List Char)
  | [] => [[]]
  | c :: rest =>
      let r := splitOnCharList sep rest
      if c = sep then [] :: r
      else
        match r with
        | [] => [[c]]
        | h :: t => (c :: h) :: t

/-- Python's `str.split(sep)` for a single-character separator. -/
def pySplit (sep : Char) (s : String) : List String :=
  (splitOnCharList sep s.toList).map String.mk

/-- Python `int(s)` on a decimal token, as used for the position field of
`feature_gen`: an optional sign followed by one or more digits.
(Surrounding whitespace, accepted by Python, is not modelled.) -/
def parsePyInt (s : String) : Option Int :=
  match s.toList with
  | [] => none
  | '+' :: rest =>
      if !rest.isEmpty && rest.all Char.isDigit then some (digitsVal rest) else none
  | '-' :: rest =>
      if !rest.isEmpty && rest.all Char.isDigit then some (-(digitsVal rest : Int)) else none
  | cs =>
      if cs.all Char.isDigit then some (digitsVal cs) else none

/-- Unsigned decimal mantissa: `digits`, `digits.digits`, `digits.` or
`.digits`, valued as a rational. -/
def parseUnsigned (s : String) : Option Rat :=
  match pySplit '.' s with
  | [a] =>
      if !a.isEmpty && a.toList.all Char.isDigit then some (digitsVal a.toList) else none
  | [a, b] =>
      if (!a.isEmpty || !b.isEmpty) && a.toList.all Char.isDigit && b.toList.all Char.isDigit
      then some ((digitsVal a.toList : Rat) + (digitsVal b.toList : Rat) / ((10 : Rat) ^ b.length))
      else none
  | _ => none

/-- Signed decimal mantissa. -/
def parseMantissa (s : String) : Option Rat :=
  match s.toList with
  | '+' :: rest => parseUnsigned (String.mk rest)
  | '-' :: rest => (parseUnsigned (String.mk rest)).map (fun q => -q)
  | _ => parseUnsigned s

/-- Split a numeral at its exponent marker (`e` or `E`). -/
def splitExp (s : String) : List String :=
  let p := pySplit 'e' s
  if p.length = 2 then p else pySplit 'E' s

/-- Python `float(s)` on a finite decimal numeral, as applied by
`feature_gen` to every value field: signed mantissa with an optional
integer exponent.  The result is the exact rational value. -/
def pyFloat (s : String) : Option Rat :=
  match splitExp s with
  | [m] => parseMantissa m
  | [m, e] =>
      match parseMantissa m, parsePyInt e with
      | some q, some k => some (q * (10 : Rat) ^ k)
      | _, _ => none
  | _ => none

/-- A per-site record: `Feature(chrom, int(pos), map(float, toks[1:]))`
from the notebook's `feature_gen` cell.  The position is an integer. -/
structure Feature where
  chrom : String
  pos : Int
  values : List Rat
deriving Repr, DecidableEq

/-- Parse failure while streaming features (Python raises `ValueError` /
`IndexError` at the offending row; the spec calls this ParseError). -/
inductive ParseError where
  /-- `toks[0].split(":")` did not yield exactly two tokens
  (or the row was empty). -/
  | badFirstColumn (rowIndex : Nat) (col : String)
  /-- `int(pos)` failed on the position token. -/
  | badPosition (rowIndex : Nat) (tok : String)
  /-- `float(tok)` failed on a value field. -/
  | badValue (rowIndex : Nat) (tok : String)
deriving Repr, DecidableEq

/-- `map(float, toks[1:])` of the `feature_gen` cell: parse every value
field, failing on the first non-numeric one. -/
def parseValues (rowIndex : Nat) : List String → Except ParseError (List Rat)
  | [] => .ok []
  | t :: rest =>
      match pyFloat t with
      | none => .error (.badValue rowIndex t)
      | some v => (parseValues rowIndex rest).map (fun vs => v :: vs)

/-- One iteration of the notebook's `feature_gen` loop body on a data row:
`chrom, pos = toks[0].split(":"); yield Feature(chrom, int(pos), map(float, toks[1:]))`. -/
def parseRow (rowIndex : Nat) (toks : List String) : Except ParseError Feature :=
  match toks with
  | [] => .error (.badFirstColumn rowIndex "")
  | first :: rest =>
      match pySplit ':' first with
      | [chrom, posTok] =>
          match parsePyInt posTok with
          | none => .error (.badPosition rowIndex posTok)
          | some p =>
              match parseValues rowIndex rest with
              | .error e => .error e
              | .ok vs => .ok ⟨chrom, p, vs⟩
      | _ => .error (.badFirstColumn rowIndex first)

/-- Parse the data rows in order, indices continuing from `i`; the stream
fails at the first bad row. -/
def parseRows : Nat → List (List String) → Except ParseError (List Feature)
  | _, [] => .ok []
  | i, r :: rest =>
      match parseRow i r with
      | .error e => .error e
      | .ok f => (parseRows (i + 1) rest).map (fun fs => f :: fs)

/-- The notebook's `feature_gen`: skip the header row (`if i == 0: continue`)
and yield one `Feature` per subsequent row. -/
def feature_gen (rows : List (List String)) : Except ParseError (List Feature) :=
  parseRows 1 (rows.drop 1)

/-- The success condition of `parseRow` on a data row: a first column that
splits into exactly two colon-separated tokens, a position token accepted by
`int`, and value fields all accepted by `float`. -/
def rowOkB (toks : List String) : Bool :=
  match toks with
  | [] => false
  | first :: rest =>
      match pySplit ':' first with
      | [_, posTok] => (parsePyInt posTok).isSome && rest.all (fun t => (pyFloat t).isSome)
      | _ => false

/-- A cluster is an ordered list of features ("Each cluster is a list of
features from your own feature_gen()"). -/
abbrev Cluster := List Feature

/-- Adjacency test used by the modelled cluster builder: next feature on the
same chromosome, strictly downstream, within `max_dist`. -/
def adjacent (max_dist : Int) (a b : Feature) : Bool :=
  a.chrom == b.chrom && a.pos < b.pos && b.pos - a.pos ≤ max_dist

/-- Pairwise ordering of features inside a cluster: same chromosome and
strictly increasing position. -/
def featOrd (a b : Feature) : Prop :=
  a.chrom = b.chrom ∧ a.pos < b.pos

instance : DecidableRel featOrd := fun a b =>
  inferInstanceAs (Decidable (a.chrom = b.chrom ∧ a.pos < b.pos))

instance : IsTrans Feature featOrd :=
  ⟨fun _ _ _ h1 h2 => ⟨h1.1.trans h2.1, h1.2.trans h2.2⟩⟩

/-- Greedy grouping loop behind the modelled `mclust`: `cur` is the current
cluster in reverse order, `last` its most recent feature. -/
def mclustGo (max_dist : Int) (cur : List Feature) (last : Feature) :
    List Feature → List Cluster
  | [] => [cur.reverse]
  | f :: rest =>
      if adjacent max_dist last f then mclustGo max_dist (f :: cur) f rest
      else cur.reverse :: mclustGo max_dist [f] f rest

/-- Modelled from the spec: `aclust.mclust`, the external ClusterBuilder
collaborator ("accepts a sequence of Feature and two parameters — maximum
inter-site distance and maximum number of skippable (too-distant)
intermediate sites — and produces a sequence of Cluster", each cluster "an
ordered sequence of Features, sharing a chromosome ... strictly increasing
position order").  The correlation test and the `max_skip` skipping rule
live in the external library and are outside the spec's scope; the model
groups consecutive in-order features within `max_dist` and keeps `max_skip`
only as a signature parameter. -/
def mclust (feats : List Feature) (max_dist : Int) (max_skip : Nat) : List Cluster :=
  match max_skip, feats with
  | _, [] => []
  | _, f :: rest => mclustGo max_dist [f] f rest

/-- The notebook's `clust_iter` cell:
`(c for c in mclust(feature_gen(f), max_dist=400, max_skip=1) if len(c) > 2)`,
kept parametric in the inputs. -/
def clust_iter (feats : List Feature) (max_dist : Int) (max_skip : Nat) : List Cluster :=
  (mclust feats max_dist max_skip).filter (fun c => 2 < c.length)

/-- Modelled from the spec: one step of the external pseudorandom source
(`np.random`), as a linear congruential generator over an explicit state. -/
def rngNext (g : Nat) : Nat × Nat :=
  let g2 := (6364136223846793005 * g + 1442695040888963407) % (2 ^ 64)
  (g2 / (2 ^ 16) % (2 ^ 32), g2)

/-- Draw a pseudorandom index below `n` (0 when `n = 0`). -/
def randBelow (g : Nat) (n : Nat) : Nat × Nat :=
  let r := rngNext g
  (if n = 0 then 0 else r.1 % n, r.2)

/-- Remove and return the element at index `i`. -/
def drawAt {α : Type} : List α → Nat → Option (α × List α)
  | [], _ => none
  | x :: rest, 0 => some (x, rest)
  | x :: rest, n + 1 => (drawAt rest n).map (fun p => (p.1, x :: p.2))

/-- Fuelled Fisher-Yates: repeatedly draw a pseudorandom element without
replacement. -/
def shuffleGo {α : Type} : Nat → Nat → List α → List α × Nat
  | 0, g, xs => (xs, g)
  | fuel + 1, g, xs =>
      match drawAt xs (randBelow g xs.length).1 with
      | none => (xs, (randBelow g xs.length).2)
      | some (x, rest) =>
          let r := shuffleGo fuel (randBelow g xs.length).2 rest
          (x :: r.1, r.2)

/-- Modelled from the spec: the random permutation applied to the
term-of-interest column ("a random permutation of that column"). -/
def shuffle {α : Type} (g : Nat) (xs : List α) : List α × Nat :=
  shuffleGo xs.length g xs

/-- The covariate table (`covs = pd.read_table('meth.clin.txt')`): a sample
identifier list plus named columns, each column's values parallel to the
samples.  Cell values are kept abstract in `α`. -/
structure CovariateTable (α : Type) where
  samples : List String
  columns : List (String × List α)
deriving Repr, DecidableEq

/-- Shuffle one column if its name is the term of interest, else keep it. -/
def colShuffle {α : Type} (g : Nat) (term : String) (c : String × List α) :
    String × List α :=
  if c.1 = term then (c.1, (shuffle g c.2).1) else c

/-- Values of a named column, if present. -/
def lookupColumn {α : Type} (t : CovariateTable α) (name : String) : Option (List α) :=
  (t.columns.find? (fun c => c.1 == name)).map (fun c => c.2)

/-- Modelled from the spec: the label permutation of PermutationEvaluator
step 3 — "apply `method_adapter.evaluate` to each cluster using a
label-permuted CovariateTable — the term-of-interest column's values are
randomly reassigned across samples (a random permutation of that column,
covariates otherwise unchanged)".  Produces a new table; the input table is
not mutated. -/
def permuteTerm {α : Type} (g : Nat) (t : CovariateTable α) (term : String) :
    CovariateTable α × Nat :=
  let g2 :=
    match lookupColumn t term with
    | some vs => (shuffle g vs).2
    | none => g
  (⟨t.samples, t.columns.map (colShuffle g term)⟩, g2)

/-- The pluggable statistical method (`gee_cluster`, `liptak_cluster`, …):
takes a cluster, covariates, a model formula string and the term of
interest; returns a region p-value, or `none` for the non-convergence
sentinel.  The numerical fitting itself is an external black box, so the
adapter is an arbitrary function value. -/
def MethodAdapter (α : Type) : Type :=
  Cluster → CovariateTable α → String → String → Option Rat

/-- Modelled from the spec: the descending grid of significance thresholds
"1e-1 through 1e-6". -/
def alphaGrid : List Rat :=
  [1 / 10, 1 / 100, 1 / 1000, 1 / 10000, 1 / 100000, 1 / 1000000]

/-- Modelled from the spec: below-threshold counting of PermutationEvaluator
step 4 — "count how many ... p-values fall below alpha"; "p-values that are
NaN or missing (from non-convergent fits) must be excluded from the
below-threshold counts". -/
def countBelow (alpha : Rat) (ps : List (Option Rat)) : Nat :=
  (ps.filterMap id).countP (fun p => p < alpha)

/-- One evaluation record per method: the two cluster batches it consumed,
the p-values of both conditions, and the per-alpha below-threshold counts
`(alpha, n_true_lt_alpha, n_false_lt_alpha)`, tagged with the method's
name. -/
structure EvaluationResult where
  method : String
  trueClusters : List Cluster
  falseClusters : List Cluster
  truePvals : List (Option Rat)
  falsePvals : List (Option Rat)
  counts : List (Rat × Nat × Nat)
deriving Repr, DecidableEq

/-- One false-condition evaluation: permute the term column, then score. -/
def falseStep {α : Type} (covs : CovariateTable α) (formula term : String)
    (fn : MethodAdapter α) (acc : List (Option Rat) × Nat) (c : Cluster) :
    List (Option Rat) × Nat :=
  let pg := permuteTerm acc.2 covs term
  (acc.1 ++ [fn c pg.1 formula term], pg.2)

/-- Modelled from the spec: `crystal.evaluate_method` (PermutationEvaluator,
spec §4.3).  Steps: (1) take up to `n_true` clusters from the stream for the
true set and the next up-to-`n_false` for the false set; (2) score the true
set with the covariates as supplied; (3) score the false set, permuting the
term-of-interest column independently per cluster; (4) count both p-value
sets against the alpha grid.  The pseudorandom state `g` is threaded
explicitly (the notebook's `np.random` global); the unconsumed remainder of
the stream and the final state are returned alongside the record. -/
def evaluate_method {α : Type} (g : Nat) (stream : List Cluster)
    (covs : CovariateTable α) (formula term name : String)
    (fn : MethodAdapter α) (n_true n_false : Nat) :
    EvaluationResult × List Cluster × Nat :=
  let trueCl := stream.take n_true
  let falseCl := (stream.drop n_true).take n_false
  let rest := (stream.drop n_true).drop n_false
  let truePs := trueCl.map (fun c => fn c covs formula term)
  let fp := falseCl.foldl (falseStep covs formula term fn) ([], g)
  (⟨name, trueCl, falseCl, truePs, fp.1,
      alphaGrid.map (fun a => (a, countBelow a truePs, countBelow a fp.1))⟩,
    rest, fp.2)

/-- Outcome of the notebook's evaluation cells: the demonstration cluster,
the five per-method records in `results.append` order, the unconsumed tail
of the shared cluster iterator, and the final pseudorandom state. -/
structure NotebookRun where
  demo : Option Cluster
  bumpRes : EvaluationResult
  liptakRes : EvaluationResult
  zscoreRes : EvaluationResult
  geeRes : EvaluationResult
  mixedRes : EvaluationResult
  remaining : List Cluster
  rng : Nat

/-- The notebook's evaluation sequence over the single shared `clust_iter`:
the demonstration cell `c = next(clust_iter)` consumes the first qualifying
cluster, then `np.random.seed(seed)` (seed 10 in the notebook) fixes the
pseudorandom state and five `evaluate_method(clust_iter, covs, formula,
'asthma', fn, 1000, 1000)` calls consume the iterator in sequence —
`bump_cluster`, `liptak_cluster`, `zscore_cluster` under the first formula,
then `gee_cluster`, `mixed_model_cluster` under the formula with `+ CpG`. -/
def notebookRun {α : Type} (seed : Nat) (clusters : List Cluster)
    (covs : CovariateTable α) (bump liptak zscore gee mixed : MethodAdapter α) :
    NotebookRun :=
  let formula1 := "methylation ~ asthma + age + gender"
  let formula2 := "methylation ~ asthma + age + gender + CpG"
  let s0 := clusters.tail
  let e1 := evaluate_method seed s0 covs formula1 "asthma" "bump_cluster" bump 1000 1000
  let e2 := evaluate_method e1.2.2 e1.2.1 covs formula1 "asthma" "liptak_cluster" liptak 1000 1000
  let e3 := evaluate_method e2.2.2 e2.2.1 covs formula1 "asthma" "zscore_cluster" zscore 1000 1000
  let e4 := evaluate_method e3.2.2 e3.2.1 covs formula2 "asthma" "gee_cluster" gee 1000 1000
  let e5 := evaluate_method e4.2.2 e4.2.1 covs formula2 "asthma" "mixed_model_cluster" mixed 1000 1000
  ⟨clusters.head?, e1.1, e2.1, e3.1, e4.1, e5.1, e5.2.1, e5.2.2⟩

/-- One row of the long-format table built by the notebook's `pd.melt` call:
`(method, alpha, truth, n_lt_alpha)`, where `truth` is the `true`/`false`
condition tag and a missing count (a DataFrame NaN) is `none`. -/
structure LongRow where
  method : String
  alpha : Rat
  truth : String
  n_lt_alpha : Option Nat
deriving Repr, DecidableEq

/-- The post-aggregation record: true- and false-condition counts paired by
(method, alpha); a missing side is `none` (a NaN cell). -/
structure ComparisonRow where
  method : String
  alpha : Rat
  lttrue : Option Nat
  ltfalse : Option Nat
deriving Repr, DecidableEq

/-- The notebook's melt cell applied to one record: `pd.melt` emits one long
row per `true_k`/`false_k` column, then `alpha = 10**-int(k)` and
`truth = variable.split('_')[0]` are recovered from the column name. -/
def meltResult (r : EvaluationResult) : List LongRow :=
  r.counts.map (fun e => ⟨r.method, e.1, "true", some e.2.1⟩) ++
    r.counts.map (fun e => ⟨r.method, e.1, "false", some e.2.2⟩)

/-- The notebook's rf/rt pairing cell:
`rf = results[results['truth'] == 'false']`,
`rt = results[results['truth'] == 'true']`, both indexed by the
`"%s_%.0e" % (method, alpha)` key, then
`rf.loc[:, 'lttrue'] = list(rt.ix[rf.index, 'n_lt_alpha'])` and
`rf['ltfalse'] = list(rf['n_lt_alpha'])`.  The `.ix` label lookup is
modelled as a search for the first true-condition row with the same
(method, alpha) key; a label absent from `rt` yields a NaN (`none`), and
the output has one row per `rf` row — nothing else.  No error is raised on
any input: the notebook defines no aggregation error.
`rf = results[results['truth'] == 'false']`: -/
def falseRows (rows : List LongRow) : List LongRow :=
  rows.filter (fun r => r.truth == "false")

/-- `rt = results[results['truth'] == 'true']`. -/
def trueRows (rows : List LongRow) : List LongRow :=
  rows.filter (fun r => r.truth == "true")

/-- `rt.ix[key]` for a `(method, alpha)` key: first matching true row. -/
def lookupTrue (rows : List LongRow) (r : LongRow) : Option LongRow :=
  (trueRows rows).find? (fun t => t.method == r.method && t.alpha == r.alpha)

def pivotComparison (rows : List LongRow) : List ComparisonRow :=
  (falseRows rows).map (fun r =>
    ⟨r.method, r.alpha, (lookupTrue rows r).bind (fun t => t.n_lt_alpha),
      r.n_lt_alpha⟩)

/-- Whether an `Except` computation succeeded. -/
def exceptOk {ε α : Type} : Except ε α → Bool
  | .ok _ => true
  | .error _ => false

theorem countBelow_mono (ps : List (Option Rat)) {a1 a2 : Rat} (h : a1 ≤ a2) :
    countBelow a1 ps ≤ countBelow a2 ps := by
  apply List.countP_mono_left
  intro x _ hx
  simp only [decide_eq_true_eq] at hx ⊢
  exact lt_of_lt_of_le hx h

/-- The counts field of an evaluation record is `countBelow` over the grid. -/
theorem em_counts {α : Type} (g : Nat) (stream : List Cluster)
    (covs : CovariateTable α) (formula term name : String) (fn : MethodAdapter α)
    (n_true n_false : Nat) :
    (evaluate_method g stream covs formula term name fn n_true n_false).1.counts =
      alphaGrid.map (fun a =>
        (a,
          countBelow a
            (evaluate_method g stream covs formula term name fn n_true n_false).1.truePvals,
          countBelow a
            (evaluate_method g stream covs formula term name fn n_true n_false).1.falsePvals)) :=
  rfl

/-- C4: NaN / missing p-values (the `none` sentinel of a non-convergent fit)
are excluded from the below-threshold counts of both conditions at every
alpha: the counts recorded by `evaluate_method` are computed by
`countBelow`, and `countBelow` is unchanged by inserting a missing p-value
anywhere — the missing entry is counted neither as below nor as above any
threshold. -/
theorem evaluate_method_counts_exclude_missing {α : Type} (g : Nat)
    (stream : List Cluster) (covs : CovariateTable α) (formula term name : String)
    (fn : MethodAdapter α) (n_true n_false : Nat) :
    ((evaluate_method g stream covs formula term name fn n_true n_false).1.counts =
      alphaGrid.map (fun a =>
        (a,
          countBelow a
            (evaluate_method g stream covs formula term name fn n_true n_false).1.truePvals,
          countBelow a
            (evaluate_method g stream covs formula term name fn n_true n_false).1.falsePvals))) ∧
    (∀ (alpha : Rat) (l1 l2 : List (Option Rat)),
        countBelow alpha (l1 ++ none :: l2) = countBelow alpha (l1 ++ l2)) := by
  constructor
  · rfl
  · intro alpha l1 l2
    simp [countBelow, List.filterMap_append]

/-- C6: the below-threshold counts recorded by `evaluate_method` are
monotonic in alpha — for grid entries with `a1 < a2`, both the
true-condition and the false-condition counts at `a1` are at most those at
`a2`. -/
theorem evaluate_method_counts_monotone {α : Type} (g : Nat)
    (stream : List Cluster) (covs : CovariateTable α) (formula term name : String)
    (fn : MethodAdapter α) (n_true n_false : Nat) (a1 a2 : Rat) (t1 f1 t2 f2 : Nat)
    (h1 : (a1, t1, f1) ∈
      (evaluate_method g stream covs formula term name fn n_true n_false).1.counts)
    (h2 : (a2, t2, f2) ∈
      (evaluate_method g stream covs formula term name fn n_true n_false).1.counts)
    (hlt : a1 < a2) : t1 ≤ t2 ∧ f1 ≤ f2 := by
  rw [em_counts g stream covs formula term name fn n_true n_false] at h1 h2
  obtain ⟨b1, _, hb1⟩ := List.mem_map.mp h1
  obtain ⟨b2, _, hb2⟩ := List.mem_map.mp h2
  injection hb1 with hA hTF
  injection hTF with hT hF
  injection hb2 with hA2 hTF2
  injection hTF2 with hT2 hF2
  subst hA; subst hT; subst hF; subst hA2; subst hT2; subst hF2
  exact ⟨countBelow_mono _ hlt.le, countBelow_mono _ hlt.le⟩

/-- C2: for a fixed pseudorandom seed, two runs of `evaluate_method` over
the same cluster stream, covariates, formula, term of interest and method
adapter produce identical false-condition p-value sets and identical
below-threshold counts.  The seed is an explicit parameter: the embedding
threads the `np.random` state set by `np.random.seed(seed)` through every
call, so the false condition's randomness is a function of the seed alone. -/
theorem evaluate_method_seed_determinism {α : Type} (seed1 seed2 : Nat)
    (s1 s2 : List Cluster) (c1 c2 : CovariateTable α) (formula term name : String)
    (f1 f2 : MethodAdapter α) (n_true n_false : Nat)
    (hseed : seed1 = seed2) (hstream : s1 = s2) (hcovs : c1 = c2) (hfn : f1 = f2) :
    (evaluate_method seed1 s1 c1 formula term name f1 n_true n_false).1.falsePvals =
      (evaluate_method seed2 s2 c2 formula term name f2 n_true n_false).1.falsePvals ∧
    (evaluate_method seed1 s1 c1 formula term name f1 n_true n_false).1.counts =
      (evaluate_method seed2 s2 c2 formula term name f2 n_true n_false).1.counts := by
  subst hseed; subst hstream; subst hcovs; subst hfn
  exact ⟨rfl, rfl⟩

/-- C7: when the cluster stream holds fewer than `n_true + n_false`
clusters, `evaluate_method` still completes (it is a total function): the
true set receives the first up-to-`n_true` clusters, the false set the
subsequent remainder, in stream order; together the two disjoint segments
exhaust the stream and nothing is left over. -/
theorem evaluate_method_short_stream {α : Type} (g : Nat) (stream : List Cluster)
    (covs : CovariateTable α) (formula term name : String) (fn : MethodAdapter α)
    (n_true n_false : Nat) (h : stream.length < n_true + n_false) :
    (evaluate_method g stream covs formula term name fn n_true n_false).1.trueClusters =
        stream.take n_true ∧
    (evaluate_method g stream covs formula term name fn n_true n_false).1.falseClusters =
        (stream.drop n_true).take n_false ∧
    (evaluate_method g stream covs formula term name fn n_true n_false).1.trueClusters ++
        (evaluate_method g stream covs formula term name fn n_true n_false).1.falseClusters =
        stream ∧
    (evaluate_method g stream covs formula term name fn n_true n_false).2.1 = [] := by
  refine ⟨rfl, rfl, ?_, ?_⟩
  · show stream.take n_true ++ (stream.drop n_true).take n_false = stream
    rw [List.take_of_length_le
          (show (stream.drop n_true).length ≤ n_false by rw [List.length_drop]; omega),
        List.take_append_drop]
  · show (stream.drop n_true).drop n_false = []
    rw [List.drop_drop]
    apply List.drop_eq_nil_of_le
    omega

theorem drawAt_perm {α : Type} :
    ∀ (xs : List α) (i : Nat) (x : α) (rest : List α),
      drawAt xs i = some (x, rest) → (x :: rest).Perm xs := by
  intro xs
  induction xs with
  | nil => intro i x rest h; simp [drawAt] at h
  | cons a t ih =>
      intro i x rest h
      cases i with
      | zero =>
          simp only [drawAt, Option.some.injEq, Prod.mk.injEq] at h
          rw [← h.1, ← h.2]
      | succ n =>
          simp only [drawAt, Option.map_eq_some'] at h
          obtain ⟨p, hp, hfx⟩ := h
          injection hfx with hx hrest
          subst hx; subst hrest
          exact ((List.Perm.swap a p.1 p.2).trans
            ((ih n p.1 p.2 (by rw [hp])).cons a)).symm.symm

theorem shuffleGo_perm {α : Type} :
    ∀ (fuel g : Nat) (xs : List α), ((shuffleGo fuel g xs).1).Perm xs := by
  intro fuel
  induction fuel with
  | zero => intro g xs; exact .refl _
  | succ n ih =>
      intro g xs
      simp only [shuffleGo]
      cases hdraw : drawAt xs (randBelow g xs.length).1 with
      | none => exact .refl _
      | some p =>
          obtain ⟨x, rest⟩ := p
          exact ((ih (randBelow g xs.length).2 rest).cons x).trans
            (drawAt_perm xs _ x rest hdraw)

theorem shuffle_perm {α : Type} (g : Nat) (xs : List α) :
    ((shuffle g xs).1).Perm xs :=
  shuffleGo_perm xs.length g xs

/-- C3: the label permutation produces a covariate table with the same
sample list; columnwise, names are preserved, every column other than the
term of interest is unchanged, and every column (in particular the
term-of-interest column) holds a permutation — the same multiset — of its
original values.  The original table is not modified (the result is a new
value). -/
theorem permuteTerm_frame {α : Type} (g : Nat) (t : CovariateTable α) (term : String) :
    ((permuteTerm g t term).1).samples = t.samples ∧
    List.Forall₂
      (fun c c2 : String × List α =>
        c2.1 = c.1 ∧ (c.1 ≠ term → c2 = c) ∧ c2.2.Perm c.2)
      t.columns ((permuteTerm g t term).1).columns := by
  refine ⟨rfl, ?_⟩
  show List.Forall₂ _ t.columns (t.columns.map (colShuffle g term))
  induction t.columns with
  | nil => exact .nil
  | cons c cs ih =>
      refine List.Forall₂.cons ?_ ih
      by_cases hc : c.1 = term
      · have hcs : colShuffle g term c = (c.1, (shuffle g c.2).1) := by
          unfold colShuffle; rw [if_pos hc]
        rw [hcs]
        exact ⟨rfl, fun hne => absurd hc hne, shuffle_perm g c.2⟩
      · have hcs : colShuffle g term c = c := by
          unfold colShuffle; rw [if_neg hc]
        rw [hcs]
        exact ⟨rfl, fun _ => rfl, .refl _⟩

theorem adjacent_featOrd {max_dist : Int} {a b : Feature}
    (h : adjacent max_dist a b = true) : featOrd a b := by
  simp only [adjacent, Bool.and_eq_true, beq_iff_eq, decide_eq_true_eq] at h
  exact ⟨h.1.1, h.1.2⟩

theorem mclustGo_chain (max_dist : Int) :
    ∀ (rest : List Feature) (cur : List Feature) (last : Feature),
      cur.head? = some last → cur.Chain' (flip featOrd) →
      ∀ c ∈ mclustGo max_dist cur last rest, c.Chain' featOrd := by
  intro rest
  induction rest with
  | nil =>
      intro cur last _ hch c hc
      simp only [mclustGo, List.mem_singleton] at hc
      subst hc
      exact List.chain'_reverse.mpr hch
  | cons f rs ih =>
      intro cur last hh hch c hc
      simp only [mclustGo] at hc
      by_cases hadj : adjacent max_dist last f
      · rw [if_pos hadj] at hc
        refine ih (f :: cur) f rfl ?_ c hc
        refine List.chain'_cons'.mpr ⟨?_, hch⟩
        intro b hb
        rw [hh, Option.mem_some_iff] at hb
        subst hb
        exact adjacent_featOrd hadj
      · rw [if_neg hadj] at hc
        rcases List.mem_cons.mp hc with h1 | h2
        · subst h1
          exact List.chain'_reverse.mpr hch
        · exact ih [f] f rfl (List.chain'_singleton f) c h2

theorem mclust_chain (feats : List Feature) (max_dist : Int) (max_skip : Nat) :
    ∀ c ∈ mclust feats max_dist max_skip, c.Chain' featOrd := by
  intro c hc
  match feats with
  | [] => simp [mclust] at hc
  | f :: rest =>
      exact mclustGo_chain max_dist rest [f] f rfl (List.chain'_singleton f) c hc

/-- C8: every cluster yielded by the notebook's `clust_iter` — hence every
cluster the evaluation loop passes to a method — satisfies the size
invariant of the `len(c) > 2` filter (at least three features) and consists
of features on one chromosome in strictly increasing position order. -/
theorem clust_iter_cluster_invariant (feats : List Feature) (max_dist : Int)
    (max_skip : Nat) (c : Cluster) (hc : c ∈ clust_iter feats max_dist max_skip) :
    2 < c.length ∧ c.Pairwise featOrd := by
  unfold clust_iter at hc
  rw [List.mem_filter] at hc
  obtain ⟨hmem, hlen⟩ := hc
  refine ⟨by simpa using hlen, ?_⟩
  exact List.chain'_iff_pairwise.mp (mclust_chain feats max_dist max_skip c hmem)

/-- Witness for C8 at a concrete input: three features 10 bp apart on chr1
form one qualifying cluster. -/
theorem clust_iter_cluster_invariant_witness :
    (([⟨"chr1", 10, []⟩, ⟨"chr1", 20, []⟩, ⟨"chr1", 30, []⟩] : Cluster) ∈
        clust_iter [⟨"chr1", 10, []⟩, ⟨"chr1", 20, []⟩, ⟨"chr1", 30, []⟩] 400 1) ∧
    2 < ([⟨"chr1", 10, []⟩, ⟨"chr1", 20, []⟩, ⟨"chr1", 30, []⟩] : Cluster).length ∧
    ([⟨"chr1", 10, []⟩, ⟨"chr1", 20, []⟩, ⟨"chr1", 30, []⟩] : Cluster).Pairwise featOrd :=
  ⟨by decide,
    clust_iter_cluster_invariant [⟨"chr1", 10, []⟩, ⟨"chr1", 20, []⟩, ⟨"chr1", 30, []⟩]
      400 1 _ (by decide)⟩

theorem exceptOk_map {ε α β : Type} (f : α → β) (e : Except ε α) :
    exceptOk (e.map f) = exceptOk e := by
  cases e <;> rfl

theorem parseValues_ok_eq (i : Nat) (rest : List String) :
    exceptOk (parseValues i rest) = rest.all (fun t => (pyFloat t).isSome) := by
  induction rest with
  | nil => rfl
  | cons t ts ih =>
      simp only [parseValues, List.all_cons]
      cases hf : pyFloat t with
      | none => simp [exceptOk, hf]
      | some v => rw [exceptOk_map, ih, Option.isSome_some, Bool.true_and]

/-- C5 counterexample: the row `["chr1:2.5", "3.0"]` has a first column that
splits into exactly two colon-separated tokens and a numeric value field —
so by the claim it should parse — yet `feature_gen`'s row parser fails,
because `int("2.5")` fails on the position token. -/
theorem parseRow_position_counterexample :
    (pySplit ':' "chr1:2.5").length = 2 ∧
    (pyFloat "3.0").isSome = true ∧
    parseRow 1 ["chr1:2.5", "3.0"] = .error (.badPosition 1 "2.5") :=
  ⟨by decide, by decide, by decide⟩

/-- C5 (amended): a data row parses successfully exactly when its first
column splits into exactly two colon-separated tokens, the position token
is accepted by `int`, and every value field is accepted by `float`; in that
case the yielded `Feature` carries the chromosome token, the integer
position and the numeric values in column order. -/
theorem parseRow_ok_iff (i : Nat) (toks : List String) :
    (exceptOk (parseRow i toks) = rowOkB toks) ∧
    (∀ (first : String) (rest : List String) (chrom posTok : String) (p : Int)
        (vs : List Rat),
      toks = first :: rest → pySplit ':' first = [chrom, posTok] →
      parsePyInt posTok = some p → parseValues i rest = .ok vs →
      parseRow i toks = .ok ⟨chrom, p, vs⟩) := by
  constructor
  · cases toks with
    | nil => rfl
    | cons first rest =>
        simp only [parseRow, rowOkB]
        cases hsp : pySplit ':' first with
        | nil => rfl
        | cons c1 l1 =>
            cases l1 with
            | nil => rfl
            | cons c2 l2 =>
                cases l2 with
                | cons c3 l3 => rfl
                | nil =>
                    cases hint : parsePyInt c2 with
                    | none => simp [exceptOk, hint]
                    | some p =>
                        simp only [hint, Option.isSome_some, Bool.true_and]
                        rw [← parseValues_ok_eq i rest]
                        cases parseValues i rest <;> rfl
  · intro first rest chrom posTok p vs htoks hsp hint hvals
    subst htoks
    simp only [parseRow, hsp, hint, hvals]

unseal Rat.add Rat.mul Rat.inv Rat.sub in
/-- Witness for C5's amended theorem at a concrete good row. -/
theorem parseRow_ok_iff_witness :
    parseRow 1 ["chr1:15865", "3"] = .ok ⟨"chr1", 15865, [(3 : Rat)]⟩ :=
  (parseRow_ok_iff 1 ["chr1:15865", "3"]).2 "chr1:15865" ["3"] "chr1" "15865" 15865
    [(3 : Rat)] rfl (by decide) (by decide) (by decide)

theorem parseRows_error_of_mem :
    ∀ (rows : List (List String)) (i : Nat) (r : List String), r ∈ rows →
      (∀ j, ∃ e, parseRow j r = .error e) → ∃ e, parseRows i rows = .error e := by
  intro rows
  induction rows with
  | nil => intro i r h; simp at h
  | cons r0 rs ih =>
      intro i r hmem hbad
      rcases List.mem_cons.mp hmem with h1 | h2
      · subst h1
        obtain ⟨e, he⟩ := hbad i
        exact ⟨e, by simp [parseRows, he]⟩
      · cases hpr : parseRow i r0 with
        | error e => exact ⟨e, by simp [parseRows, hpr]⟩
        | ok f =>
            obtain ⟨e, he⟩ := ih (i + 1) r h2 hbad
            exact ⟨e, by simp [parseRows, hpr, he, Except.map]⟩

/-- C9: beyond the spec's two stated failure conditions, `feature_gen`
requires the position token to be accepted by Python's `int` (the position
is stored as an integer, `Feature.pos : Int`): a data row whose first
column splits into two colon-separated tokens and whose value fields are
all numeric still fails — and makes the whole stream fail — when the
position token is not an integer numeral. -/
theorem parseRow_nonint_position_fails (i : Nat) (first : String)
    (rest : List String) (chrom posTok : String)
    (hsp : pySplit ':' first = [chrom, posTok])
    (hvals : rest.all (fun t => (pyFloat t).isSome) = true)
    (hpos : parsePyInt posTok = none) :
    parseRow i (first :: rest) = .error (.badPosition i posTok) ∧
    ∀ rows : List (List String), (first :: rest) ∈ rows.drop 1 →
      ∃ e, feature_gen rows = .error e := by
  have hrow : ∀ j, parseRow j (first :: rest) = .error (.badPosition j posTok) := by
    intro j
    simp only [parseRow, hsp, hpos]
  refine ⟨hrow i, ?_⟩
  intro rows hmem
  exact parseRows_error_of_mem (rows.drop 1) 1 (first :: rest) hmem
    (fun j => ⟨.badPosition j posTok, hrow j⟩)

/-- Witness for C9: the row `chr1:2.7 → 2.0` has numeric values and a
two-token first column, but a fractional position. -/
theorem parseRow_nonint_position_fails_witness :
    parseRow 1 ["chr1:2.7", "2.0"] = .error (.badPosition 1 "2.7") ∧
    ∃ e, feature_gen [["probe", "s1"], ["chr1:2.7", "2.0"]] = .error e :=
  ⟨(parseRow_nonint_position_fails 1 "chr1:2.7" ["2.0"] "chr1" "2.7" (by decide)
      (by decide) (by decide)).1,
    (parseRow_nonint_position_fails 1 "chr1:2.7" ["2.0"] "chr1" "2.7" (by decide)
      (by decide) (by decide)).2 [["probe", "s1"], ["chr1:2.7", "2.0"]] (by decide)⟩

unseal Rat.add Rat.mul Rat.inv Rat.sub in
/-- C1 counterexample: fed long-format rows where the (method, alpha) pair
`("gee_cluster", 1e-1)` is present only in the true condition and
`("liptak_cluster", 1e-1)` only in the false condition, the pairing cell
raises no error: it emits exactly one row — the false-only pair padded with
a missing (`none`, i.e. NaN) true count — and the true-only pair appears
nowhere in the output (silently dropped). -/
theorem pivotComparison_mismatch_counterexample :
    pivotComparison
        [⟨"gee_cluster", 1 / 10, "true", some 5⟩,
          ⟨"liptak_cluster", 1 / 10, "false", some 2⟩] =
      [⟨"liptak_cluster", 1 / 10, none, some 2⟩] ∧
    (∀ c ∈ pivotComparison
        [⟨"gee_cluster", 1 / 10, "true", some 5⟩,
          ⟨"liptak_cluster", 1 / 10, "false", some 2⟩],
      c.method ≠ "gee_cluster") := by
  constructor
  · decide
  · decide

/-- C1 (amended): the pairing cell reports no mismatch error (none exists in
the notebook): a (method, alpha) pair present only in the false condition
yields a ComparisonRow whose true count is missing (NaN, `none`), and a
pair present only in the true condition is silently dropped — no output row
carries its key. -/
theorem pivotComparison_mismatch_behaviour (rows : List LongRow) (r : LongRow)
    (hr : r ∈ rows) (hf : r.truth = "false")
    (hmiss : ∀ t ∈ rows, t.truth = "true" → ¬(t.method = r.method ∧ t.alpha = r.alpha)) :
    (∃ c ∈ pivotComparison rows,
        c.method = r.method ∧ c.alpha = r.alpha ∧ c.lttrue = none ∧
        c.ltfalse = r.n_lt_alpha) ∧
    (∀ t ∈ rows, t.truth = "true" →
      (∀ fr ∈ rows, fr.truth = "false" → ¬(fr.method = t.method ∧ fr.alpha = t.alpha)) →
      ∀ c ∈ pivotComparison rows, ¬(c.method = t.method ∧ c.alpha = t.alpha)) := by
  constructor
  · refine ⟨⟨r.method, r.alpha, (lookupTrue rows r).bind (fun t => t.n_lt_alpha),
      r.n_lt_alpha⟩, ?_, rfl, rfl, ?_, rfl⟩
    · exact List.mem_map_of_mem _ (List.mem_filter.mpr ⟨hr, by simp [hf]⟩)
    · have hnone : lookupTrue rows r = none := by
        apply List.find?_eq_none.mpr
        intro t ht
        have htt := List.mem_filter.mp ht
        have htr : t.truth = "true" := by simpa using htt.2
        intro hpred
        simp only [Bool.and_eq_true, beq_iff_eq] at hpred
        exact hmiss t htt.1 htr ⟨hpred.1, hpred.2⟩
      rw [hnone]
      rfl
  · intro t ht htr hnofalse c hc hkey
    obtain ⟨fr, hfr, hc2⟩ := List.mem_map.mp hc
    have hfrf := List.mem_filter.mp hfr
    have hft : fr.truth = "false" := by simpa using hfrf.2
    subst hc2
    exact hnofalse fr hfrf.1 hft ⟨hkey.1, hkey.2⟩

unseal Rat.add Rat.mul Rat.inv Rat.sub in
/-- Witness for C1's amended theorem at a concrete false-only row. -/
theorem pivotComparison_mismatch_behaviour_witness :
    (∃ c ∈ pivotComparison [⟨"zscore_cluster", 1 / 10, "false", some 2⟩],
        c.method = "zscore_cluster" ∧ c.alpha = 1 / 10 ∧ c.lttrue = none ∧
        c.ltfalse = some 2) ∧
    (∀ t ∈ ([⟨"zscore_cluster", 1 / 10, "false", some 2⟩] : List LongRow),
      t.truth = "true" →
      (∀ fr ∈ ([⟨"zscore_cluster", 1 / 10, "false", some 2⟩] : List LongRow),
        fr.truth = "false" → ¬(fr.method = t.method ∧ fr.alpha = t.alpha)) →
      ∀ c ∈ pivotComparison [⟨"zscore_cluster", 1 / 10, "false", some 2⟩],
        ¬(c.method = t.method ∧ c.alpha = t.alpha)) :=
  pivotComparison_mismatch_behaviour [⟨"zscore_cluster", 1 / 10, "false", some 2⟩]
    ⟨"zscore_cluster", 1 / 10, "false", some 2⟩ (List.mem_cons_self _ _) rfl (by decide)

theorem em_trueClusters {α : Type} (g : Nat) (s : List Cluster)
    (covs : CovariateTable α) (formula term name : String) (fn : MethodAdapter α)
    (nt nf : Nat) :
    (evaluate_method g s covs formula term name fn nt nf).1.trueClusters = s.take nt :=
  rfl

theorem em_falseClusters {α : Type} (g : Nat) (s : List Cluster)
    (covs : CovariateTable α) (formula term name : String) (fn : MethodAdapter α)
    (nt nf : Nat) :
    (evaluate_method g s covs formula term name fn nt nf).1.falseClusters =
      (s.drop nt).take nf :=
  rfl

theorem em_rest {α : Type} (g : Nat) (s : List Cluster)
    (covs : CovariateTable α) (formula term name : String) (fn : MethodAdapter α)
    (nt nf : Nat) :
    (evaluate_method g s covs formula term name fn nt nf).2.1 = (s.drop nt).drop nf :=
  rfl

theorem take_drop_chunk {α : Type} (l : List α) (a m n : Nat) :
    (l.drop a).take m ++ (l.drop (a + m)).take n = (l.drop a).take (m + n) := by
  rw [List.take_add, List.drop_drop]

/-- C10: the five method evaluations consume the single shared cluster
iterator in sequence; each method's evaluated batch is a 2000-cluster slice
of the filtered stream, the slices sit at pairwise disjoint stream
positions in stream order, and the first qualifying cluster — consumed by
the demonstration `next(clust_iter)` — belongs to none of them: the
demonstration head plus the five batches partition the first 10001 stream
positions. -/
theorem notebookRun_disjoint_batches {α : Type} (seed : Nat) (clusters : List Cluster)
    (covs : CovariateTable α) (bump liptak zscore gee mixed : MethodAdapter α) :
    (notebookRun seed clusters covs bump liptak zscore gee mixed).demo =
        clusters.head? ∧
    (notebookRun seed clusters covs bump liptak zscore gee mixed).bumpRes.trueClusters ++
        (notebookRun seed clusters covs bump liptak zscore gee mixed).bumpRes.falseClusters =
      (clusters.drop 1).take 2000 ∧
    (notebookRun seed clusters covs bump liptak zscore gee mixed).liptakRes.trueClusters ++
        (notebookRun seed clusters covs bump liptak zscore gee mixed).liptakRes.falseClusters =
      (clusters.drop 2001).take 2000 ∧
    (notebookRun seed clusters covs bump liptak zscore gee mixed).zscoreRes.trueClusters ++
        (notebookRun seed clusters covs bump liptak zscore gee mixed).zscoreRes.falseClusters =
      (clusters.drop 4001).take 2000 ∧
    (notebookRun seed clusters covs bump liptak zscore gee mixed).geeRes.trueClusters ++
        (notebookRun seed clusters covs bump liptak zscore gee mixed).geeRes.falseClusters =
      (clusters.drop 6001).take 2000 ∧
    (notebookRun seed clusters covs bump liptak zscore gee mixed).mixedRes.trueClusters ++
        (notebookRun seed clusters covs bump liptak zscore gee mixed).mixedRes.falseClusters =
      (clusters.drop 8001).take 2000 ∧
    clusters.take 1 ++ (clusters.drop 1).take 2000 ++ (clusters.drop 2001).take 2000 ++
        (clusters.drop 4001).take 2000 ++ (clusters.drop 6001).take 2000 ++
        (clusters.drop 8001).take 2000 =
      clusters.take 10001 := by
  refine ⟨rfl, ?_, ?_, ?_, ?_, ?_, ?_⟩
  · simp only [notebookRun, em_trueClusters, em_falseClusters, em_rest, ← List.drop_one,
      List.drop_drop]
    norm_num
    have h := take_drop_chunk clusters 1 1000 1000
    norm_num at h
    exact h
  · simp only [notebookRun, em_trueClusters, em_falseClusters, em_rest, ← List.drop_one,
      List.drop_drop]
    norm_num
    have h := take_drop_chunk clusters 2001 1000 1000
    norm_num at h
    exact h
  · simp only [notebookRun, em_trueClusters, em_falseClusters, em_rest, ← List.drop_one,
      List.drop_drop]
    norm_num
    have h := take_drop_chunk clusters 4001 1000 1000
    norm_num at h
    exact h
  · simp only [notebookRun, em_trueClusters, em_falseClusters, em_rest, ← List.drop_one,
      List.drop_drop]
    norm_num
    have h := take_drop_chunk clusters 6001 1000 1000
    norm_num at h
    exact h
  · simp only [notebookRun, em_trueClusters, em_falseClusters, em_rest, ← List.drop_one,
      List.drop_drop]
    norm_num
    have h := take_drop_chunk clusters 8001 1000 1000
    norm_num at h
    exact h
  · have c1 : clusters.take 1 ++ (clusters.drop 1).take 2000 = clusters.take 2001 := by
      simpa using take_drop_chunk clusters 0 1 2000
    have c2 : clusters.take 2001 ++ (clusters.drop 2001).take 2000 = clusters.take 4001 := by
      simpa using take_drop_chunk clusters 0 2001 2000
    have c3 : clusters.take 4001 ++ (clusters.drop 4001).take 2000 = clusters.take 6001 := by
      simpa using take_drop_chunk clusters 0 4001 2000
    have c4 : clusters.take 6001 ++ (clusters.drop 6001).take 2000 = clusters.take 8001 := by
      simpa using take_drop_chunk clusters 0 6001 2000
    have c5 : clusters.take 8001 ++ (clusters.drop 8001).take 2000 = clusters.take 10001 := by
      simpa using take_drop_chunk clusters 0 8001 2000
    rw [c1, c2, c3, c4, c5]

unseal Rat.add Rat.mul Rat.inv Rat.sub in
/-- Witness for C6 on a concrete (empty-stream) evaluation: the grid entries
1e-2 < 1e-1 both carry count 0, and the counts are monotone. -/
theorem evaluate_method_counts_monotone_witness :
    (((1 : Rat) / 100, 0, 0) ∈
        (evaluate_method 0 ([] : List Cluster) (⟨[], []⟩ : CovariateTable Nat)
          "methylation ~ asthma + age + gender" "asthma" "zscore_cluster"
          (fun _ _ _ _ => none) 1 1).1.counts) ∧
    (((1 : Rat) / 10, 0, 0) ∈
        (evaluate_method 0 ([] : List Cluster) (⟨[], []⟩ : CovariateTable Nat)
          "methylation ~ asthma + age + gender" "asthma" "zscore_cluster"
          (fun _ _ _ _ => none) 1 1).1.counts) ∧
    (1 : Rat) / 100 < 1 / 10 ∧ ((0 : Nat) ≤ 0 ∧ (0 : Nat) ≤ 0) := by
  refine ⟨by decide, by decide, by norm_num, ?_⟩
  exact evaluate_method_counts_monotone 0 [] (⟨[], []⟩ : CovariateTable Nat)
    "methylation ~ asthma + age + gender" "asthma" "zscore_cluster"
    (fun _ _ _ _ => none) 1 1 (1 / 100) (1 / 10) 0 0 0 0 (by decide) (by decide)
    (by norm_num)

/-- Witness for C2 at a concrete seed and inputs (the notebook's seed 10). -/
theorem evaluate_method_seed_determinism_witness :
    (evaluate_method 10 ([] : List Cluster) (⟨[], []⟩ : CovariateTable Nat)
        "methylation ~ asthma + age + gender" "asthma" "zscore_cluster"
        (fun _ _ _ _ => none) 1000 1000).1.falsePvals =
      (evaluate_method 10 ([] : List Cluster) (⟨[], []⟩ : CovariateTable Nat)
        "methylation ~ asthma + age + gender" "asthma" "zscore_cluster"
        (fun _ _ _ _ => none) 1000 1000).1.falsePvals ∧
    (evaluate_method 10 ([] : List Cluster) (⟨[], []⟩ : CovariateTable Nat)
        "methylation ~ asthma + age + gender" "asthma" "zscore_cluster"
        (fun _ _ _ _ => none) 1000 1000).1.counts =
      (evaluate_method 10 ([] : List Cluster) (⟨[], []⟩ : CovariateTable Nat)
        "methylation ~ asthma + age + gender" "asthma" "zscore_cluster"
        (fun _ _ _ _ => none) 1000 1000).1.counts :=
  evaluate_method_seed_determinism 10 10 [] [] ⟨[], []⟩ ⟨[], []⟩
    "methylation ~ asthma + age + gender" "asthma" "zscore_cluster"
    (fun _ _ _ _ => none) (fun _ _ _ _ => none) 1000 1000 rfl rfl rfl rfl

/-- Witness for C7: a one-cluster stream split as 1 true + 1 false. -/
theorem evaluate_method_short_stream_witness :
    (evaluate_method 0 [[⟨"chr1", 10, []⟩, ⟨"chr1", 20, []⟩, ⟨"chr1", 30, []⟩]]
        (⟨[], []⟩ : CovariateTable Nat) "methylation ~ asthma + age + gender"
        "asthma" "gee_cluster" (fun _ _ _ _ => none) 1 1).1.trueClusters =
      [[⟨"chr1", 10, []⟩, ⟨"chr1", 20, []⟩, ⟨"chr1", 30, []⟩]].take 1 ∧
    (evaluate_method 0 [[⟨"chr1", 10, []⟩, ⟨"chr1", 20, []⟩, ⟨"chr1", 30, []⟩]]
        (⟨[], []⟩ : CovariateTable Nat) "methylation ~ asthma + age + gender"
        "asthma" "gee_cluster" (fun _ _ _ _ => none) 1 1).1.falseClusters =
      ([[⟨"chr1", 10, []⟩, ⟨"chr1", 20, []⟩, ⟨"chr1", 30, []⟩]].drop 1).take 1 ∧
    (evaluate_method 0 [[⟨"chr1", 10, []⟩, ⟨"chr1", 20, []⟩, ⟨"chr1", 30, []⟩]]
        (⟨[], []⟩ : CovariateTable Nat) "methylation ~ asthma + age + gender"
        "asthma" "gee_cluster" (fun _ _ _ _ => none) 1 1).1.trueClusters ++
      (evaluate_method 0 [[⟨"chr1", 10, []⟩, ⟨"chr1", 20, []⟩, ⟨"chr1", 30, []⟩]]
        (⟨[], []⟩ : CovariateTable Nat) "methylation ~ asthma + age + gender"
        "asthma" "gee_cluster" (fun _ _ _ _ => none) 1 1).1.falseClusters =
      [[⟨"chr1", 10, []⟩, ⟨"chr1", 20, []⟩, ⟨"chr1", 30, []⟩]] ∧
    (evaluate_method 0 [[⟨"chr1", 10, []⟩, ⟨"chr1", 20, []⟩, ⟨"chr1", 30, []⟩]]
        (⟨[], []⟩ : CovariateTable Nat) "methylation ~ asthma + age + gender"
        "asthma" "gee_cluster" (fun _ _ _ _ => none) 1 1).2.1 = [] :=
  evaluate_method_short_stream 0 [[⟨"chr1", 10, []⟩, ⟨"chr1", 20, []⟩, ⟨"chr1", 30, []⟩]]
    ⟨[], []⟩ "methylation ~ asthma + age + gender" "asthma" "gee_cluster"
    (fun _ _ _ _ => none) 1 1 (by decide)

/-- Witness for C3 at a concrete table: permuting the `asthma` column of a
two-sample table keeps the samples and the `age` column and permutes the
`asthma` values. -/
theorem permuteTerm_frame_witness :
    ((permuteTerm 0 (⟨["s1", "s2"], [("asthma", [0, 1]), ("age", [12, 11])]⟩ :
        CovariateTable Nat) "asthma").1).samples = ["s1", "s2"] ∧
    List.Forall₂
      (fun c c2 : String × List Nat =>
        c2.1 = c.1 ∧ (c.1 ≠ "asthma" → c2 = c) ∧ c2.2.Perm c.2)
      [("asthma", [0, 1]), ("age", [12, 11])]
      ((permuteTerm 0 (⟨["s1", "s2"], [("asthma", [0, 1]), ("age", [12, 11])]⟩ :
        CovariateTable Nat) "asthma").1).columns :=
  permuteTerm_frame 0 ⟨["s1", "s2"], [("asthma", [0, 1]), ("age", [12, 11])]⟩ "asthma"
